import Mathlib

/-!
Verification development for the reflex-template pricing scraper
(`scrapers/main_scraper.py`, `scrapers/chatgpt_scraper.py`,
`scrapers/regions.py`, `scrapers/notion_client.py`).

Conventions of the embedding:
* Python strings are Lean `String`s; the character-level work is done on
  `String.data : List Char`.
* Python `float` results are modelled as exact rationals (`ℚ`); the price
  strings handled by the scrapers are plain decimal numerals, for which the
  float rounding is irrelevant to the properties considered here.
* Python dictionaries are modelled as association lists with first-match
  lookup; Python truthiness of a string value (empty string is falsy) is
  modelled explicitly where the source relies on it.
* Network, browser and HTML collaborators (`requests`, Playwright,
  BeautifulSoup, Notion) are modelled as explicit oracle parameters: a fetch
  oracle maps a URL to either an error message or an HTML document, and a
  selector oracle maps an HTML document and a CSS selector to the text of the
  first matching element, if any.  The control flow around these calls is
  translated from the source.
* `re.sub`/`re.search`/`re.match` calls are translated pattern by pattern into
  executable scanners; each translation is documented next to the regex it
  embeds.
-/

namespace Reflex

/-! ## Generic string helpers -/

/-- Digit test matching the regex class `\d` on the ASCII inputs handled by
the scrapers. -/
def isDig (c : Char) : Bool := c.isDigit

/-- `startsWithL pat l` : `pat` is a prefix of `l` (character lists). -/
def startsWithL : List Char → List Char → Bool
  | [], _ => true
  | _ :: _, [] => false
  | p :: ps, h :: hs => p == h && startsWithL ps hs

/-- `hasSubL hay needle` : Python `needle in hay` (substring containment). -/
def hasSubL (hay needle : List Char) : Bool :=
  if startsWithL needle hay then true
  else
    match hay with
    | [] => false
    | _ :: t => hasSubL t needle

/-- Python `needle in hay` on strings. -/
def containsSub (hay needle : String) : Bool := hasSubL hay.data needle.data

/-- Python `str.strip()` (leading and trailing whitespace removed). -/
def pyStripL (l : List Char) : List Char :=
  ((l.dropWhile Char.isWhitespace).reverse.dropWhile Char.isWhitespace).reverse

/-- Python `str.strip()` on strings. -/
def pyStrip (s : String) : String := String.mk (pyStripL s.data)

/-- ASCII lower-casing, matching Python `str.lower()` on the ASCII region
tokens and currency codes used by the scrapers. -/
def lowerStr (s : String) : String := String.mk (s.data.map Char.toLower)

/-- ASCII upper-casing, matching Python `str.upper()` on the same inputs. -/
def upperStr (s : String) : String := String.mk (s.data.map Char.toUpper)

/-- Python `s.replace(old, "")` for a single character `old`. -/
def removeChar (c : Char) (l : List Char) : List Char := l.filter (fun d => d ≠ c)

/-- Python `s.replace(",", ".")` (single-character replacement). -/
def replaceChar (old new : Char) (l : List Char) : List Char :=
  l.map (fun d => if d = old then new else d)

/-- `re.sub("[" ++ cs ++ "]", "", s)`: delete every character in `cs`. -/
def stripCharSet (cs : List Char) (l : List Char) : List Char :=
  l.filter (fun d => ¬ cs.contains d)

/-- Python `str.replace(needle, repl)`: left-to-right, non-overlapping, the
replacement text is not rescanned.  Fuel is the length of the remaining
input. -/
def replaceSubAux (needle repl : List Char) : Nat → List Char → List Char
  | 0, l => l
  | fuel + 1, l =>
    if startsWithL needle l ∧ needle ≠ [] then
      repl ++ replaceSubAux needle repl fuel (l.drop needle.length)
    else
      match l with
      | [] => []
      | c :: t => c :: replaceSubAux needle repl fuel t

/-- Python `str.replace` on strings. -/
def replaceSub (s needle repl : String) : String :=
  String.mk (replaceSubAux needle.data repl.data s.data.length s.data)

/-- Python truthiness of an optional string: `None` and `""` are falsy. -/
def pyTruthy (o : Option String) : Bool :=
  match o with
  | none => false
  | some s => ¬ s.isEmpty

/-- Python `a or b` where `a`, `b` are optional strings. -/
def pyOr (a b : Option String) : Option String := if pyTruthy a then a else b

/-- Python `a or b` where `a`, `b` are plain strings. -/
def pyOrStr (a b : String) : String := if a = "" then b else a

/-- First-match lookup in an association list, modelling `dict.get`. -/
def lookupA (m : List (String × String)) (k : String) : Option String :=
  match m.find? (fun kv => kv.1 = k) with
  | some kv => some kv.2
  | none => none

/-! ## Decimal parsing (`float(cleaned)`)

`parseDec` models Python `float()` on the fragment actually reachable from
the scrapers: an optional sign, decimal digits and at most one decimal
point.  (The exponent, underscore and `inf`/`nan` forms of `float()` are not
produced by the cleaning steps and are not modelled.)  The value is returned
as the exact rational `sign * digits / 10 ^ fractionLength`. -/

/-- Decimal digit accumulator: `digitsVal "1299" = 1299`. -/
def digitsVal (l : List Char) : Nat :=
  l.foldl (fun n c => 10 * n + (c.toNat - 48)) 0

/-- The syntactic part of `float()`: sign flag (`true` = negative), combined
integer-and-fraction digit value, and number of fraction digits.  `none`
models a raised `ValueError`. -/
def parseDecParts (l : List Char) : Option (Bool × Nat × Nat) :=
  let signAndRest : Bool × List Char :=
    match l with
    | '-' :: r => (true, r)
    | '+' :: r => (false, r)
    | _ => (false, l)
  let ip := signAndRest.2.takeWhile isDig
  let rest := signAndRest.2.drop ip.length
  match rest with
  | [] =>
    if ip.isEmpty then none
    else some (signAndRest.1, digitsVal ip, 0)
  | '.' :: fr =>
    if fr.all isDig ∧ (¬ ip.isEmpty ∨ ¬ fr.isEmpty) then
      some (signAndRest.1, digitsVal (ip ++ fr), fr.length)
    else none
  | _ => none

/-- Numeric value of the parsed parts: `sign * digits / 10 ^ fracLen`. -/
def partsVal (p : Bool × Nat × Nat) : ℚ :=
  (if p.1 then (-1 : ℚ) else 1) * ((p.2.1 : ℚ) / 10 ^ p.2.2)

/-- `float()` on an optional-sign decimal numeral. -/
def parseDec (l : List Char) : Option ℚ :=
  (parseDecParts l).map partsVal

/-! ## Word-bounded currency-code removal

Embeds `re.sub(r"\b(C1|C2|...)\b", "", s, flags=re.I)`: the scan is
left-to-right; at each position the alternatives are tried in order; a match
requires a non-word character (or the string edge) on both sides.  All
alternatives consist of word characters, so after a removal the scan resumes
after the matched text, carrying the last matched character as the boundary
context.  `\w` is modelled as ASCII alphanumerics plus underscore (the
scraped price strings are ASCII). -/

def isWordChar (c : Char) : Bool := c.isAlphanum || c == '_'

/-- Case-insensitive prefix test (ASCII case folding, as `re.I`). -/
def ciStartsWith : List Char → List Char → Bool
  | [], _ => true
  | _ :: _, [] => false
  | p :: ps, h :: hs => p.toLower == h.toLower && ciStartsWith ps hs

/-- One alternative matches at the current position with both `\b`s. -/
def codeMatchAt (code : List Char) (prev : Option Char) (l : List Char) : Bool :=
  ciStartsWith code l
  && (match prev with
      | some c => ¬ isWordChar c
      | none => true)
  && (match l.drop code.length with
      | c :: _ => ¬ isWordChar c
      | [] => true)

def removeCodesAux (codes : List (List Char)) : Nat → Option Char → List Char → List Char
  | 0, _, l => l
  | fuel + 1, prev, l =>
    match l with
    | [] => []
    | c :: rest =>
      match codes.find? (fun cd => codeMatchAt cd prev l) with
      | some cd => removeCodesAux codes fuel (some (l.getD (cd.length - 1) c)) (l.drop cd.length)
      | none => c :: removeCodesAux codes fuel (some c) rest

/-- `re.sub(r"\b(codes...)\b", "", l, flags=re.I)`. -/
def removeCodes (codes : List String) (l : List Char) : List Char :=
  removeCodesAux (codes.map String.data) l.length none l

/-! ## `main_scraper.parse_price` -/

/-- Full match of `^\d{1,3}(,\d{3})*(\.\d+)?$` after the leading digit group:
either end of input, a fraction part, or a comma followed by exactly three
digits and recursively more groups.  Fuel bounds the recursion by the input
length. -/
def usGroups (fuel : Nat) (l : List Char) : Bool :=
  match fuel, l with
  | _, [] => true
  | _, '.' :: r => ¬ r.isEmpty && r.all isDig
  | f + 1, ',' :: r => (r.takeWhile isDig).length == 3 && usGroups f (r.drop 3)
  | 0, ',' :: _ => false
  | _, _ => false

/-- `re.search(r"^\d{1,3}(,\d{3})*(\.\d+)?$", l)` (anchored on both sides, so
a full-match test).  The leading `\d{1,3}` must take the whole initial digit
run: a longer run leaves a digit where `,`, `.` or the end is required. -/
def usFormatMatch (l : List Char) : Bool :=
  let run := l.takeWhile isDig
  1 ≤ run.length && run.length ≤ 3 && usGroups l.length (l.drop run.length)

/-- `re.search(r"^\d+,\d{2}$", l)`: some digits, one comma, exactly two
digits.  Read off the reversed list. -/
def euroFullMatch (l : List Char) : Bool :=
  match l.reverse with
  | b :: a :: ',' :: rest => isDig b && isDig a && ¬ rest.isEmpty && rest.all isDig
  | _ => false

/-- Cleaning pipeline of `main_scraper.parse_price`: strip the symbols
`$€£¥₹`, strip word-bounded `USD|EUR|GBP|CAD|AUD` case-insensitively, strip
`[\s,]` (all whitespace AND all commas), then apply the two format
branches. -/
def mainClean (raw : String) : List Char :=
  let c1 := stripCharSet ['$', '€', '£', '¥', '₹'] raw.data
  let c2 := removeCodes ["USD", "EUR", "GBP", "CAD", "AUD"] c1
  let c3 := c2.filter (fun c => ¬ (c.isWhitespace || c == ','))
  if usFormatMatch c3 then removeChar ',' c3
  else if euroFullMatch c3 then replaceChar ',' '.' c3
  else c3

/-- Embeds `main_scraper.parse_price` (src/scrapers/main_scraper.py:146). -/
def mainParsePrice (raw : String) : Option ℚ :=
  if raw = "" then none else parseDec (mainClean raw)

/-! ## `chatgpt_scraper.parse_price` -/

/-- `re.search(r"\d+,\d{2}$", l)` (anchored only at the end): the input ends
with `<digit>,<digit><digit>`. -/
def endsEuroSearch (l : List Char) : Bool :=
  match l.reverse with
  | b :: a :: ',' :: d :: _ => isDig b && isDig a && isDig d
  | _ => false

/-- Cleaning pipeline of `chatgpt_scraper.parse_price`: remove the literal
`R$` first, then the single-character currency symbols, then the
word-bounded currency codes, then whitespace (commas and periods are kept);
then the decimal-convention branch. -/
def cgClean (raw : String) : List Char :=
  let c1 := (replaceSub raw "R$" "").data
  let c2 := stripCharSet ['$', '€', '£', '¥', '₹', '₽', '₪', '₩', '¢'] c1
  let c3 := removeCodes
    ["USD", "EUR", "GBP", "CAD", "AUD", "INR", "BRL", "JPY", "MXN", "ARS",
     "TRY", "PLN", "ZAR", "NGN", "PHP", "IDR", "THB", "Rp"] c2
  let c4 := c3.filter (fun c => ¬ c.isWhitespace)
  if endsEuroSearch c4 then replaceChar ',' '.' (removeChar '.' c4)
  else removeChar ',' c4

/-- Embeds `chatgpt_scraper.parse_price` (src/scrapers/chatgpt_scraper.py:702). -/
def cgParsePrice (raw : String) : Option ℚ :=
  if raw = "" then none else parseDec (cgClean raw)

/-- `parse_price` applied to an optional string (`None` fails the
`isinstance` guard and yields `None`). -/
def cgParsePriceOpt (raw : Option String) : Option ℚ :=
  match raw with
  | none => none
  | some s => cgParsePrice s

/-! ## `chatgpt_scraper.extract_currency`

Embeds src/scrapers/chatgpt_scraper.py:728.  The leading
`re.match(r"([A-Z]{3})\s+[\d,]+", raw)` is a prefix test: three ASCII
capital letters, at least one whitespace character, at least one digit or
comma; on success the three letters are returned.  After that the source is
a chain of substring tests, with `R$` checked before `$`. -/

def isUpperAZ (c : Char) : Bool := 'A' ≤ c && c ≤ 'Z'

def digitComma (c : Char) : Bool := c.isDigit || c == ','

/-- The `re.match(r"([A-Z]{3})\s+[\d,]+", raw)` group, if the prefix
matches. -/
def currencyCodeMatch (l : List Char) : Option String :=
  match l with
  | a :: b :: c :: rest =>
    if isUpperAZ a && isUpperAZ b && isUpperAZ c then
      let ws := rest.takeWhile Char.isWhitespace
      if ws.isEmpty then none
      else
        match rest.drop ws.length with
        | d :: _ => if digitComma d then some (String.mk [a, b, c]) else none
        | [] => none
    else none
  | _ => none

def extractCurrency (raw : String) : String :=
  if raw = "" then "USD"
  else
    match currencyCodeMatch raw.data with
    | some code => code
    | none =>
      if containsSub raw "R$" then "BRL"
      else if containsSub raw "$" then
        -- the nested CAD/AUD/MXN/ARS returns collapse to this chain
        if containsSub raw "CAD" then "CAD"
        else if containsSub raw "AUD" then "AUD"
        else if containsSub raw "MXN" then "MXN"
        else if containsSub raw "ARS" then "ARS"
        else "USD"
      else if containsSub raw "€" || containsSub raw "EUR" then "EUR"
      else if containsSub raw "£" || containsSub raw "GBP" then "GBP"
      else if containsSub raw "₹" || containsSub raw "INR" then "INR"
      else if containsSub raw "BRL" then "BRL"
      else if containsSub raw "¥" || containsSub raw "JPY" then "JPY"
      else if containsSub raw "₺" || containsSub raw "TRY" then "TRY"
      else if containsSub raw "zł" || containsSub raw "PLN" then "PLN"
      else if containsSub raw "ZAR" then "ZAR"
      else if containsSub raw "₦" || containsSub raw "NGN" then "NGN"
      else if containsSub raw "₱" || containsSub raw "PHP" then "PHP"
      else if containsSub raw "Rp" || containsSub raw "IDR" then "IDR"
      else if containsSub raw "฿" || containsSub raw "THB" then "THB"
      else "USD"

/-! ## `chatgpt_scraper.extract_price_from_html`

Embeds src/scrapers/chatgpt_scraper.py:669: eight `re.search` patterns tried
in order over the text of the Plus section; the first match's group 1,
stripped, is returned.  Each pattern is translated into a scanner that tries
the pattern at every start position from the left (`re.search` semantics).
At a fixed start position the scanners take character runs greedily; this is
exact because in every pattern the adjacent pieces draw from disjoint
character classes (`[\d,]` never contains `.`, whitespace or a currency
symbol), so the regex engine never needs to backtrack into a shorter run. -/

/-- The optional `(?:\.\d{2})?` suffix: the consumed characters and the
rest. -/
def optDecimal2 (l : List Char) : List Char × List Char :=
  match l with
  | '.' :: a :: b :: r =>
    if isDig a && isDig b then (['.', a, b], r) else ([], l)
  | _ => ([], l)

/-- `(\$[\d,]+(?:\.\d{2})?)` at one position. -/
def matchP1 : List Char → Option (List Char)
  | '$' :: r =>
    let run := r.takeWhile digitComma
    if run.isEmpty then none
    else some ('$' :: run ++ (optDecimal2 (r.drop run.length)).1)
  | _ => none

/-- `([\d,]+(?:\.\d{2})?\s*(?:€|£|₹|¥|₽))` at one position. -/
def matchP2 (l : List Char) : Option (List Char) :=
  let run := l.takeWhile digitComma
  if run.isEmpty then none
  else
    let afterRun := l.drop run.length
    let dec := (optDecimal2 afterRun).1
    let r1 := (optDecimal2 afterRun).2
    let ws := r1.takeWhile Char.isWhitespace
    match r1.drop ws.length with
    | c :: _ =>
      if c == '€' || c == '£' || c == '₹' || c == '¥' || c == '₽' then
        some (run ++ dec ++ ws ++ [c])
      else none
    | [] => none

/-- `(sym\s*[\d,]+(?:\.\d{2})?)` at one position (patterns 3, 4 and, without
the decimal suffix, 5). -/
def matchSymNum (sym : Char) (withDec : Bool) (l : List Char) : Option (List Char) :=
  match l with
  | c :: r =>
    if c = sym then
      let ws := r.takeWhile Char.isWhitespace
      let r1 := r.drop ws.length
      let run := r1.takeWhile digitComma
      if run.isEmpty then none
      else
        let dec := if withDec then (optDecimal2 (r1.drop run.length)).1 else []
        some (c :: ws ++ run ++ dec)
    else none
  | [] => none

/-- `(R\$\s*[\d,]+(?:\.\d{2})?)` at one position. -/
def matchP6 : List Char → Option (List Char)
  | 'R' :: '$' :: r =>
    let ws := r.takeWhile Char.isWhitespace
    let r1 := r.drop ws.length
    let run := r1.takeWhile digitComma
    if run.isEmpty then none
    else some ('R' :: '$' :: ws ++ run ++ (optDecimal2 (r1.drop run.length)).1)
  | _ => none

/-- `([A-Z]{3}\s+[\d,]+(?:\.\d{2})?)` at one position. -/
def matchP7 : List Char → Option (List Char)
  | a :: b :: c :: r =>
    if isUpperAZ a && isUpperAZ b && isUpperAZ c then
      let ws := r.takeWhile Char.isWhitespace
      if ws.isEmpty then none
      else
        let r1 := r.drop ws.length
        let run := r1.takeWhile digitComma
        if run.isEmpty then none
        else some (a :: b :: c :: ws ++ run ++ (optDecimal2 (r1.drop run.length)).1)
    else none
  | _ => none

/-- `([\d,]+(?:\.\d{2})?)\s*/\s*month` at one position; group 1 is only the
number part. -/
def matchP8 (l : List Char) : Option (List Char) :=
  let run := l.takeWhile digitComma
  if run.isEmpty then none
  else
    let afterRun := l.drop run.length
    let dec := (optDecimal2 afterRun).1
    let r1 := (optDecimal2 afterRun).2
    let ws1 := r1.takeWhile Char.isWhitespace
    match r1.drop ws1.length with
    | '/' :: r2 =>
      let ws2 := r2.takeWhile Char.isWhitespace
      if startsWithL ['m', 'o', 'n', 't', 'h'] (r2.drop ws2.length) then
        some (run ++ dec)
      else none
    | _ => none

/-- `re.search`: try the position matcher at every start position, leftmost
first. -/
def searchFirst (m : List Char → Option (List Char)) : List Char → Option (List Char)
  | [] => m []
  | l@(_ :: t) =>
    match m l with
    | some r => some r
    | none => searchFirst m t

/-- The ordered pattern list of `extract_price_from_html`. -/
def pricePatterns : List (List Char → Option (List Char)) :=
  [matchP1, matchP2, matchSymNum '€' true, matchSymNum '£' true,
   matchSymNum '₹' false, matchP6, matchP7, matchP8]

/-- Embeds `extract_price_from_html` applied to the text of a found Plus
section (the `plus_section.get_text()` value is the oracle input; the
`if not plus_section` guard is handled by the caller). -/
def extractPriceFromHtml (text : String) : Option String :=
  match pricePatterns.findSome? (fun m => searchFirst m text.data) with
  | some captured => some (String.mk (pyStripL captured))
  | none => none

/-! ## `regions.resolve_region_page_id`

Embeds src/scrapers/regions.py:205.  The Regions-DB code and alias maps are
association lists (`code_to_page_id`, `alias_to_page_id`); Python string
truthiness (`if direct:`, `x or y`) is modelled with `pyTruthy`/`pyOr`. -/

/-- `_VALUE_TO_CANONICAL_OVERRIDES` (src/scrapers/regions.py:30). -/
def valueToCanonicalOverrides : List (String × String) :=
  [("uk", "GB"), ("africa", "XF"), ("la", "XL"), ("cis_en", "CIS"),
   ("cis_ru", "CIS"), ("mena_ar", "MENA"), ("mena_en", "MENA")]

/-- Embeds `resolve_region_page_id`.  Priority: override table, exact
canonical-code match on the upper-cased token, alias match on the
lower-cased token, then the separator heuristic, which upper-cases the
FIRST TWO characters (`lower[:2].upper()`), not the prefix before the
separator. -/
def resolveRegionPageId (regionValue : Option String)
    (codeToPageId aliasToPageId : List (String × String)) : Option String :=
  match regionValue with
  | none => none
  | some v =>
    if v = "" then none
    else
      let raw := pyStrip v
      if raw = "" then none
      else
        let lower := lowerStr raw
        match lookupA valueToCanonicalOverrides lower with
        | some canonicalOverride =>
          pyOr (lookupA codeToPageId canonicalOverride)
            (lookupA aliasToPageId (lowerStr canonicalOverride))
        | none =>
          let direct := lookupA codeToPageId (upperStr raw)
          if pyTruthy direct then direct
          else
            let aliasHit := lookupA aliasToPageId lower
            if pyTruthy aliasHit then aliasHit
            else
              if 2 ≤ lower.length ∧ containsSub lower "_" then
                lookupA codeToPageId (upperStr (String.mk (lower.data.take 2)))
              else none

/-- The resolver as claim C7 words it (spec §4.1 step 4): identical staged
priority, but the heuristic upper-cases the whole PREFIX BEFORE THE
SEPARATOR and tests it against the canonical code set.  Stated from the
spec's words, for comparison with `resolveRegionPageId`. -/
def resolveRegionSpecClaim (regionValue : Option String)
    (codeToPageId aliasToPageId : List (String × String)) : Option String :=
  match regionValue with
  | none => none
  | some v =>
    if v = "" then none
    else
      let raw := pyStrip v
      if raw = "" then none
      else
        let lower := lowerStr raw
        match lookupA valueToCanonicalOverrides lower with
        | some canonicalOverride =>
          pyOr (lookupA codeToPageId canonicalOverride)
            (lookupA aliasToPageId (lowerStr canonicalOverride))
        | none =>
          let direct := lookupA codeToPageId (upperStr raw)
          if pyTruthy direct then direct
          else
            let aliasHit := lookupA aliasToPageId lower
            if pyTruthy aliasHit then aliasHit
            else
              if 2 ≤ lower.length ∧ containsSub lower "_" then
                lookupA codeToPageId
                  (upperStr (String.mk (lower.data.takeWhile (fun c => c ≠ '_'))))
              else none

/-- One stage of the resolver viewed as a priority list: `none` means "no
decision, fall through", `some r` means "decided, return `r`" (`r` itself
may be `Option.none` when the stage decides a failed lookup). -/
def firstDecision : List (Option (Option String)) → Option String
  | [] => none
  | some r :: _ => r
  | none :: rest => firstDecision rest

/-- The claim C7 conclusion after amendment: the resolver follows the
priority list override table → exact canonical code → alias → separator
heuristic on the FIRST TWO characters → unresolved, each stage written
separately. -/
def resolveRegionStaged (regionValue : Option String)
    (codeToPageId aliasToPageId : List (String × String)) : Option String :=
  match regionValue with
  | none => none
  | some v =>
    if v = "" then none
    else
      let raw := pyStrip v
      if raw = "" then none
      else
        let lower := lowerStr raw
        firstDecision
          [ -- stage 1: hand-maintained override table (decides even when the
            -- canonical page is missing from both maps)
            (lookupA valueToCanonicalOverrides lower).map (fun canonical =>
              pyOr (lookupA codeToPageId canonical)
                (lookupA aliasToPageId (lowerStr canonical))),
            -- stage 2: exact canonical-code match, case-insensitive
            (fun d => if pyTruthy d then some d else none) (lookupA codeToPageId (upperStr raw)),
            -- stage 3: alias match, case-insensitive
            (fun a => if pyTruthy a then some a else none) (lookupA aliasToPageId lower),
            -- stage 4: separator heuristic on the first two characters
            if 2 ≤ lower.length ∧ containsSub lower "_" then
              some (lookupA codeToPageId (upperStr (String.mk (lower.data.take 2))))
            else none ]

/-! ## Data model of the orchestrator (`main_scraper`)

Product dictionaries are modelled as records whose fields carry the
`dict.get` defaults used by the source (`name` ↦ "Unknown", `url` ↦ "",
`rendering` ↦ "static", missing selectors ↦ "", `region_config` ↦ type
"none" with no regions). -/

structure SelectorsCfg where
  price : String
  currency : String
  period : String
  plan_name : String
deriving DecidableEq, Repr

structure RegionCfg where
  type : String
  regions : List String
  url_pattern : String
  selector : String
deriving DecidableEq, Repr

structure ProductCfg where
  name : String
  url : String
  rendering : String
  selectors : SelectorsCfg
  region_config : RegionCfg
deriving DecidableEq, Repr

/-- The data dictionary assembled by `scrape_single_region` /
`scrape_with_region_interaction`. -/
structure PriceData where
  product_name : String
  amount : Option ℚ
  currency : String
  period : String
  plan_name : String
  source_url : String
  region : Option String
deriving DecidableEq, Repr

/-- One `push_price_data` call (src/scrapers/notion_client.py:40), i.e. one
observation handed to the persistence collaborator, recorded by its
arguments. -/
structure PushCall where
  product_name : String
  amount : ℚ
  currency : String
  period : String
  plan_name : String
  source_url : String
  success : Bool
  notes : Option String
  region_page_id : Option String
deriving DecidableEq, Repr

/-- `extract_text(soup, selector)` (src/scrapers/main_scraper.py:138) with
the soup represented by a selector oracle `q` (the text of the first
element matching the selector, if any): empty selector and missing element
both give `""`. -/
def extractTextSel (q : String → Option String) (sel : String) : String :=
  if sel = "" then ""
  else
    match q sel with
    | some t => t
    | none => ""

/-- `re.search(r"[\$€£]?\s*\d+(?:\.\d{2})?", parent_text)` at one position:
optional currency symbol, optional whitespace, at least one digit.  The
optional pieces never make a failing position succeed (a symbol is not
whitespace or a digit), so committing to them is exact. -/
def matchParentPat (l : List Char) : Option (List Char) :=
  let rest1 :=
    match l with
    | c :: t => if c == '$' || c == '€' || c == '£' then t else l
    | [] => l
  let rest2 := rest1.dropWhile Char.isWhitespace
  let run := rest2.takeWhile isDig
  if run.isEmpty then none else some run

/-- The pandas fallback in `scrape_single_region`:
`pd.to_numeric(re.sub(r"[^\d.]", "", price_raw), errors="coerce")`, with
`NaN` (unparseable) giving `None`.  `pd.to_numeric` on the digits-and-dots
string agrees with `float()` on the modelled fragment. -/
def pandasNumeric (raw : String) : Option ℚ :=
  parseDec (raw.data.filter (fun c => c.isDigit || c == '.'))

/-- `url = url or base_url` at the head of `scrape_single_region`: a missing
or empty URL argument falls back to the product's configured URL. -/
def effectiveUrl (product : ProductCfg) (urlArg : Option String) : String :=
  match urlArg with
  | some u => pyOrStr u product.url
  | none => product.url

/-- The body of `scrape_single_region` after the URL has been fixed: fetch,
extraction, parsing, normalization and data assembly
(src/scrapers/main_scraper.py:183–228).
Collaborator oracles: `fetch url useJs` models `fetch_with_retry` (an
`Except` error models the exception caught at the call site), `q html sel`
models `soup.select_one(sel)` text, `parentText html sel` models the text
of the parent of the first element matching `sel`, when both exist.
Exceptions other than the fetch failure (modelled) and the pandas import
(modelled as available) do not arise in the embedded fragment. -/
def scrapeAtUrl
    (fetch : String → Bool → Except String String)
    (q : String → String → Option String)
    (parentText : String → String → Option String)
    (product : ProductCfg) (url : String) (region : Option String) :
    Bool × String × Option PriceData :=
  let name := product.name
  match fetch url (product.rendering == "js") with
  | .error e => (false, e, none)
  | .ok html =>
    let priceRaw0 := extractTextSel (q html) product.selectors.price
    let currencyRaw := extractTextSel (q html) product.selectors.currency
    let periodRaw := extractTextSel (q html) product.selectors.period
    let planRaw := extractTextSel (q html) product.selectors.plan_name
    -- Fallback: when price loads dynamically, try parent of period element
    let priceRaw :=
      if priceRaw0 = "" ∧ periodRaw ≠ "" ∧ product.selectors.period ≠ "" then
        match parentText html product.selectors.period with
        | some ptext =>
          if (searchFirst matchParentPat ptext.data).isSome then ptext else priceRaw0
        | none => priceRaw0
      else priceRaw0
    let amount :=
      match mainParsePrice priceRaw with
      | some a => some a
      | none => if priceRaw ≠ "" then pandasNumeric priceRaw else none
    let currency := pyOrStr (pyStrip (pyOrStr currencyRaw "USD")) "USD"
    let period := pyOrStr (pyStrip (pyOrStr periodRaw "")) "Unknown"
    let planName := pyOrStr (pyStrip (pyOrStr planRaw "")) name
    let currency2 := pyStrip (String.mk (removeChar ',' currency.data))
    let period2 := pyStrip (String.mk (removeChar ',' period.data))
    (true, "",
      some { product_name := name, amount := amount, currency := currency2,
             period := period2, plan_name := planName, source_url := url,
             region := region })

/-- Embeds `scrape_single_region` (src/scrapers/main_scraper.py:165): the
URL defaulting, the chatgpt.com → openai.com rewrite, then the fetch and
extraction body. -/
def scrapeSingleRegion
    (fetch : String → Bool → Except String String)
    (q : String → String → Option String)
    (parentText : String → String → Option String)
    (product : ProductCfg) (urlArg : Option String) (region : Option String) :
    Bool × String × Option PriceData :=
  let url0 := effectiveUrl product urlArg
  -- ChatGPT: openai.com works better than chatgpt.com for scraping
  let url := if containsSub url0 "chatgpt.com" then "https://openai.com/chatgpt/pricing" else url0
  scrapeAtUrl fetch q parentText product url region

/-- Embeds `scrape_with_region_interaction`
(src/scrapers/main_scraper.py:231).  `browse p r` models the Playwright
navigation plus region-switch click; an error models the caught exception
of the switch block.  The extraction below it has no chatgpt rewrite and
no period-parent fallback. -/
def scrapeWithRegionInteraction
    (browse : ProductCfg → String → Except String String)
    (q : String → String → Option String)
    (product : ProductCfg) (region : String) :
    Bool × String × Option PriceData :=
  if product.region_config.selector = "" ∨
     (product.region_config.type ≠ "dropdown" ∧ product.region_config.type ≠ "button") then
    (false, "No region switcher configured", none)
  else
    match browse product region with
    | .error e => (false, "Region switch failed: " ++ e, none)
    | .ok html =>
      let priceRaw := extractTextSel (q html) product.selectors.price
      let currencyRaw := extractTextSel (q html) product.selectors.currency
      let periodRaw := extractTextSel (q html) product.selectors.period
      let planRaw := extractTextSel (q html) product.selectors.plan_name
      let amount :=
        match mainParsePrice priceRaw with
        | some a => some a
        | none => if priceRaw ≠ "" then pandasNumeric priceRaw else none
      let currency := pyOrStr (pyStrip (pyOrStr currencyRaw "USD")) "USD"
      let period := pyOrStr (pyStrip (pyOrStr periodRaw "")) "Unknown"
      let planName := pyOrStr (pyStrip (pyOrStr planRaw "")) product.name
      let currency2 := pyStrip (String.mk (removeChar ',' currency.data))
      let period2 := pyStrip (String.mk (removeChar ',' period.data))
      (true, "",
        some { product_name := product.name, amount := amount, currency := currency2,
               period := period2, plan_name := planName, source_url := product.url,
               region := some region })

def startsWithStr (s pre : String) : Bool := startsWithL pre.data s.data

/-- Python `base.rstrip("/")`. -/
def rstripSlash (s : String) : String :=
  String.mk ((s.data.reverse.dropWhile (fun c => c = '/')).reverse)

/-- URL construction of the `url-param` branch of
`scrape_product_all_regions` (src/scrapers/main_scraper.py:355). -/
def buildUrl (base pattern region : String) : String :=
  let u1 := replaceSub pattern "\x7b\x7bREGION\x7d\x7d" region
  let u2 := replaceSub u1 "\x7bREGION\x7d" region
  if startsWithStr u2 "?" || startsWithStr u2 "&" then
    let sep := if containsSub base "?" then "&" else "?"
    -- the branch guard makes url[0] ∈ "?&", so the source takes url[1:]
    base ++ sep ++ String.mk (u2.data.drop 1)
  else if ¬ startsWithStr u2 "http" then
    rstripSlash base ++ (if ¬ startsWithStr u2 "/" then "/" else "") ++ u2
  else u2

/-- The per-region branch dispatch inside the loop of
`scrape_product_all_regions` (src/scrapers/main_scraper.py:351).  The
`try/except` around the URL construction and the outer loop `try/except`
guard exceptions that the embedded fragment cannot raise (string work and
collaborators returning values), so they are not reachable here. -/
def regionDispatch
    (fetch : String → Bool → Except String String)
    (q : String → String → Option String)
    (parentText : String → String → Option String)
    (browse : ProductCfg → String → Except String String)
    (p : ProductCfg) (r : String) : Bool × String × Option PriceData :=
  if p.region_config.type = "url-param" ∧ p.region_config.url_pattern ≠ "" then
    scrapeSingleRegion fetch q parentText p
      (some (buildUrl p.url p.region_config.url_pattern r)) (some r)
  else if p.region_config.type = "dropdown" ∨ p.region_config.type = "button" then
    scrapeWithRegionInteraction browse q p r
  else
    scrapeSingleRegion fetch q parentText p none (some r)

/-- The `if ok and data: results.append(data)` accumulation over the region
list, in configuration order. -/
def scrapeRegionsLoop
    (fetch : String → Bool → Except String String)
    (q : String → String → Option String)
    (parentText : String → String → Option String)
    (browse : ProductCfg → String → Except String String)
    (p : ProductCfg) : List String → List PriceData
  | [] => []
  | r :: rest =>
    (match regionDispatch fetch q parentText browse p r with
     | (true, _, some d) => [d]
     | _ => []) ++ scrapeRegionsLoop fetch q parentText browse p rest

/-- Embeds `scrape_product_all_regions` (src/scrapers/main_scraper.py:334). -/
def scrapeProductAllRegions
    (fetch : String → Bool → Except String String)
    (q : String → String → Option String)
    (parentText : String → String → Option String)
    (browse : ProductCfg → String → Except String String)
    (p : ProductCfg) : List PriceData :=
  if p.region_config.type = "none" ∨ p.region_config.regions = [] then
    match scrapeSingleRegion fetch q parentText p none none with
    | (true, _, some d) => [d]
    | _ => []
  else
    scrapeRegionsLoop fetch q parentText browse p p.region_config.regions

/-- The outcome of one region of the loop, as an optional data record:
`some` exactly when the region's scrape succeeded with data. -/
def perRegionScrape
    (fetch : String → Bool → Except String String)
    (q : String → String → Option String)
    (parentText : String → String → Option String)
    (browse : ProductCfg → String → Except String String)
    (p : ProductCfg) (r : String) : Option PriceData :=
  match regionDispatch fetch q parentText browse p r with
  | (true, _, some d) => some d
  | _ => none

/-- Embeds `scrape_product` (src/scrapers/main_scraper.py:380). -/
def scrapeProduct
    (fetch : String → Bool → Except String String)
    (q : String → String → Option String)
    (parentText : String → String → Option String)
    (browse : ProductCfg → String → Except String String)
    (p : ProductCfg) : Bool × String × List PriceData :=
  let allData := scrapeProductAllRegions fetch q parentText browse p
  if allData.isEmpty then (false, "No data extracted", []) else (true, "", allData)

/-- The `push_price_data` call derived from one data dictionary in the
per-data loop of `run_scraper` (src/scrapers/main_scraper.py:446). -/
def pushForData (name : String) (cmap amap : List (String × String))
    (d : PriceData) : PushCall :=
  let rid := resolveRegionPageId d.region cmap amap
  match d.amount with
  | none =>
    { product_name := name, amount := 0, currency := d.currency,
      period := d.period, plan_name := d.plan_name, source_url := d.source_url,
      success := false, notes := some "Could not parse price", region_page_id := rid }
  | some a =>
    { product_name := d.product_name, amount := a, currency := d.currency,
      period := d.period, plan_name := d.plan_name, source_url := d.source_url,
      success := true, notes := none, region_page_id := rid }

/-- The pushes `run_scraper` makes for one product, given the result of
`scrape_product` (src/scrapers/main_scraper.py:419–483).  A failed
`push_price_data` call only logs, so pushes are recorded unconditionally;
log lines and counters are not modelled. -/
def observationsForProduct (p : ProductCfg)
    (res : Bool × String × List PriceData)
    (cmap amap : List (String × String)) : List PushCall :=
  match res with
  | (false, err, _) =>
    [{ product_name := p.name, amount := 0, currency := "", period := "",
       plan_name := "", source_url := p.url, success := false,
       notes := some err, region_page_id := none }]
  | (true, _, []) => []
  | (true, _, ds) => ds.map (pushForData p.name cmap amap)

/-! ## `chatgpt_scraper.scrape_region`

The `SELECTORS` constant (src/scrapers/chatgpt_scraper.py:50) and the
post-fetch part of `scrape_region` (src/scrapers/chatgpt_scraper.py:782).
The soup is represented by a selector oracle `q` as before; the text of the
found Plus section (`plus_section.get_text()`), when one was found by the
section-selector/heading search, is the `plusText` oracle input. -/

def selectorsPrice : List String :=
  ["#plus > div.flex.w-full.flex-col.justify-between.gap-8 > div.flex.flex-col.gap-4 > div > div > span",
   "#plus span[class*=\x27price\x27]",
   "#plus .price",
   "[data-testid=\x27plus-price\x27]",
   "#plus span:contains(\x27$\x27)"]

def selectorsCurrency : List String :=
  ["#plus > div.flex.w-full.flex-col.justify-between.gap-8 > div.flex.flex-col.gap-4 > div > div > span",
   "#plus span[class*=\x27currency\x27]"]

def selectorsPeriod : List String :=
  ["#plus > div.flex.w-full.flex-col.justify-between.gap-8 > div.flex.flex-col.gap-4 > div > div > div",
   "#plus div:contains(\x27/month\x27)",
   "#plus div:contains(\x27/mo\x27)"]

def selectorsPlanName : List String :=
  ["#plus > div.flex.w-full.flex-col.justify-between.gap-8 > div:nth-child(1) > div > h3",
   "#plus h3",
   "[data-testid=\x27plus-name\x27]"]

def cgUrl : String := "https://chatgpt.com/pricing"

/-- `chatgpt_scraper.extract_text` (src/scrapers/chatgpt_scraper.py:649)
over a selector list: the first selector whose element exists and has
non-empty text wins; a selector error (oracle `none`) is skipped. -/
def cgExtractText (q : String → Option String) : List String → String
  | [] => ""
  | sel :: rest =>
    match q sel with
    | some t => if t ≠ "" then t else cgExtractText q rest
    | none => cgExtractText q rest

/-- The tier gate of `scrape_region` (src/scrapers/chatgpt_scraper.py:839):
the pattern fallback runs only when the selector text is empty AND a Plus
section was found; `some ""` is the still-empty string, `none` the Python
`None` an exhausted `extract_price_from_html` returns. -/
def cgSelectPriceRaw (selectorText : String) (plusText : Option String) : Option String :=
  if selectorText = "" then
    match plusText with
    | some t => extractPriceFromHtml t
    | none => some ""
  else some selectorText

/-- Python `price_raw or currency_raw` where `price_raw` may be `None`. -/
def pyOrOptStr (a : Option String) (b : String) : String :=
  match a with
  | none => b
  | some s => if s = "" then b else s

/-- The period normalization of `scrape_region`
(src/scrapers/chatgpt_scraper.py:873). -/
def cgNormalizePeriod (periodRaw : String) : String :=
  let period := pyStrip (pyOrStr periodRaw "")
  let pl := lowerStr period
  if period = "" || containsSub pl "month" || containsSub pl "/mo" then "Monthly"
  else if containsSub pl "year" || containsSub pl "annual" then "Annual"
  else if containsSub pl "week" then "Weekly"
  else period

/-- Embeds the post-fetch part of `scrape_region`
(src/scrapers/chatgpt_scraper.py:809–907): returns the success flag and the
`push_price_data` calls made.  A falsy resolved region page id raises
inside the `try`, which is caught and returns `False` — no push happens.
The debug-HTML branch and console prints are not modelled. -/
def cgScrapeRegion
    (htmlFetched : Option String)
    (q : String → Option String)
    (plusText : Option String)
    (countryCode : String)
    (cmap amap : List (String × String)) : Bool × List PushCall :=
  match htmlFetched with
  | none => (false, [])
  | some _html =>
    let priceRaw0 := cgExtractText q selectorsPrice
    let priceRaw := cgSelectPriceRaw priceRaw0 plusText
    let currencyRaw := cgExtractText q selectorsCurrency
    let periodRaw := cgExtractText q selectorsPeriod
    let planRaw := cgExtractText q selectorsPlanName
    match cgParsePriceOpt priceRaw with
    | none => (false, [])
    | some amount =>
      let currency := extractCurrency (pyOrOptStr priceRaw currencyRaw)
      let period := cgNormalizePeriod periodRaw
      let planName := pyOrStr (pyStrip (pyOrStr planRaw "")) "Plus"
      let rid := resolveRegionPageId (some countryCode) cmap amap
      if pyTruthy rid then
        (true,
         [{ product_name := "ChatGPT Plus", amount := amount, currency := currency,
            period := period, plan_name := planName, source_url := cgUrl,
            success := true, notes := none, region_page_id := rid }])
      else (false, [])

/-! ## Challenge-wait loops of the fetch paths

The `while waited < max_wait` polling loops of `fetch_page_with_patchright`
(src/scrapers/chatgpt_scraper.py:262), `fetch_page_with_proxy`
(src/scrapers/chatgpt_scraper.py:601) and `fetch_page_with_nodriver`
(src/scrapers/chatgpt_scraper.py:477).  The page state over time is an
oracle from the elapsed wait (in seconds) to title/content; each challenge
iteration sleeps 2 seconds.  The interactive Turnstile click of the
patchright path only influences the page state, which the oracle already
fixes, so it needs no separate model.  Fuel bounds the loop by the number
of iterations; `maxWait` iterations of step 2 always suffice. -/

def cfWait (isChallenge : Nat → Bool) (maxWait : Nat) : Nat → Nat → Nat
  | 0, waited => waited
  | fuel + 1, waited =>
    if waited < maxWait then
      if isChallenge waited then cfWait isChallenge maxWait fuel (waited + 2)
      else waited
    else waited

/-- The challenge classifier of the patchright path: title or content holds
a Cloudflare interstitial marker. -/
def isCloudflarePat (title html : String) : Bool :=
  containsSub title "Just a moment" || containsSub html "Just a moment" ||
  containsSub html "challenges.cloudflare.com" || containsSub html "cf-turnstile"

/-- The challenge classifier of the proxy / nodriver / crawlee paths. -/
def isCloudflareHtml (html : String) : Bool :=
  containsSub html "Just a moment" || containsSub html "challenges.cloudflare.com"

/-- Embeds the challenge handling and return of `fetch_page_with_patchright`:
on `waited >= max_wait` the browser is closed and `None` returned; otherwise
the final page content is returned.  `title`/`content` give the page state
at a given elapsed wait; `finalHtml` is the content read after the
pricing-section waits. -/
def fetchPageWithPatchright (title content : Nat → String) (visible : Bool)
    (finalHtml : String) : Option String :=
  let maxWait := if visible then 90 else 60
  let waited := cfWait (fun w => isCloudflarePat (title w) (content w)) maxWait maxWait 0
  if maxWait ≤ waited then none else some finalHtml

/-- Embeds the challenge handling and return of `fetch_page_with_proxy`: on
`waited >= max_cf_wait` the source only prints a message and falls through —
the page content is returned regardless of the challenge state. -/
def fetchPageWithProxy (content : Nat → String) (finalHtml : String) : Option String :=
  let _waited := cfWait (fun w => isCloudflareHtml (content w)) 30 30 0
  some finalHtml

/-- Embeds the challenge handling and return of `fetch_page_with_nodriver`:
identical shape to the proxy path — the timeout is only printed and the
page source is returned regardless. -/
def fetchPageWithNodriver (content : Nat → String) (finalHtml : String) : Option String :=
  let _waited := cfWait (fun w => isCloudflareHtml (content w)) 30 30 0
  some finalHtml

/-! ## Concrete fixtures used by the claim theorems -/

/-- A three-region url-param product whose second region's fetch fails. -/
def exProduct3 : ProductCfg :=
  { name := "Acme", url := "https://x.example/p", rendering := "static",
    selectors := { price := "#price", currency := "", period := "", plan_name := "" },
    region_config := { type := "url-param", regions := ["us", "de", "fr"],
                       url_pattern := "https://x.example/p?loc=\x7bREGION\x7d",
                       selector := "" } }

/-- Fetch oracle: the `de` URL times out, every other URL succeeds. -/
def exFetch3 : String → Bool → Except String String :=
  fun u _ => if containsSub u "de" then .error "timeout" else .ok "okhtml"

/-- Selector oracle: the price selector matches text `$9.99`. -/
def exQ3 : String → String → Option String :=
  fun _ sel => if sel = "#price" then some "$9.99" else none

/-- Parent-text oracle with no parent elements. -/
def exPT : String → String → Option String := fun _ _ => none

/-- Browser-interaction oracle that always fails. -/
def exBrowse : ProductCfg → String → Except String String := fun _ _ => .error "nb"

/-- A single-region product whose currency selector yields the text `,`. -/
def exProductC2 : ProductCfg :=
  { name := "P", url := "https://ex.com/pricing", rendering := "static",
    selectors := { price := "#p", currency := "#c", period := "", plan_name := "" },
    region_config := { type := "none", regions := [], url_pattern := "", selector := "" } }

/-- Fetch oracle that always succeeds. -/
def exFetchOk : String → Bool → Except String String := fun _ _ => .ok "h"

/-- Selector oracle: price text `9.99`, currency text `,`. -/
def exQC2 : String → String → Option String :=
  fun _ sel => if sel = "#p" then some "9.99" else if sel = "#c" then some "," else none

/-- ChatGPT selector oracle: the fourth price selector yields `$20.00`. -/
def exQC9 : String → Option String :=
  fun sel => if sel = "[data-testid=\x27plus-price\x27]" then some "$20.00" else none

/-- ChatGPT selector oracle: the fourth price selector yields the
unparseable text `Contact us`. -/
def exQC5 : String → Option String :=
  fun sel => if sel = "[data-testid=\x27plus-price\x27]" then some "Contact us" else none

/-- A page that never leaves the Cloudflare challenge state. -/
def challengePage : String := "<title>Just a moment...</title>"

/-- A product configured with a chatgpt.com URL. -/
def exProductCg : ProductCfg :=
  { name := "ChatGPT Plus", url := "https://chatgpt.com/pricing", rendering := "js",
    selectors := { price := "#p", currency := "", period := "", plan_name := "" },
    region_config := { type := "none", regions := [], url_pattern := "", selector := "" } }

/-- A successful-scrape data record with an unresolvable region token. -/
def exDataC9 : PriceData :=
  { product_name := "P", amount := some 5, currency := "USD", period := "Monthly",
    plan_name := "P", source_url := "https://ex.com", region := some "zz" }

/-! ## Supporting lemmas -/

/-- The body of `scrape_single_region` records the fetched URL as the
observation's source URL. -/
theorem scrapeAtUrl_source
    (fetch : String → Bool → Except String String)
    (q : String → String → Option String)
    (parentText : String → String → Option String)
    (p : ProductCfg) (u : String) (r : Option String) :
    ∀ d, (scrapeAtUrl fetch q parentText p u r).2.2 = some d → d.source_url = u := by
  intro d h
  unfold scrapeAtUrl at h
  cases hf : fetch u (p.rendering == "js") with
  | error e => rw [hf] at h; exact absurd h (by simp)
  | ok html =>
    rw [hf] at h
    simp only [Option.some.injEq] at h
    rw [← h]

/-- The body of `scrape_single_region` tags the observation with the region
argument it was called with. -/
theorem scrapeAtUrl_region
    (fetch : String → Bool → Except String String)
    (q : String → String → Option String)
    (parentText : String → String → Option String)
    (p : ProductCfg) (u : String) (r : Option String) :
    ∀ d, (scrapeAtUrl fetch q parentText p u r).2.2 = some d → d.region = r := by
  intro d h
  unfold scrapeAtUrl at h
  cases hf : fetch u (p.rendering == "js") with
  | error e => rw [hf] at h; exact absurd h (by simp)
  | ok html =>
    rw [hf] at h
    simp only [Option.some.injEq] at h
    rw [← h]

/-- `scrape_with_region_interaction` tags the observation with its region
argument. -/
theorem interaction_region
    (browse : ProductCfg → String → Except String String)
    (q : String → String → Option String)
    (p : ProductCfg) (r : String) :
    ∀ d, (scrapeWithRegionInteraction browse q p r).2.2 = some d → d.region = some r := by
  intro d h
  unfold scrapeWithRegionInteraction at h
  by_cases hc : p.region_config.selector = "" ∨
      (p.region_config.type ≠ "dropdown" ∧ p.region_config.type ≠ "button")
  · rw [if_pos hc] at h; exact absurd h (by simp)
  · rw [if_neg hc] at h
    cases hb : browse p r with
    | error e => rw [hb] at h; exact absurd h (by simp)
    | ok html =>
      rw [hb] at h
      simp only [Option.some.injEq] at h
      rw [← h]

/-- The per-region dispatch tags the observation with the loop's region
token. -/
theorem regionDispatch_region
    (fetch : String → Bool → Except String String)
    (q : String → String → Option String)
    (parentText : String → String → Option String)
    (browse : ProductCfg → String → Except String String)
    (p : ProductCfg) (r : String) :
    ∀ d, (regionDispatch fetch q parentText browse p r).2.2 = some d → d.region = some r := by
  intro d h
  unfold regionDispatch at h
  by_cases h1 : p.region_config.type = "url-param" ∧ p.region_config.url_pattern ≠ ""
  · rw [if_pos h1] at h
    unfold scrapeSingleRegion at h
    exact scrapeAtUrl_region fetch q parentText p _ (some r) d h
  · rw [if_neg h1] at h
    by_cases h2 : p.region_config.type = "dropdown" ∨ p.region_config.type = "button"
    · rw [if_pos h2] at h
      exact interaction_region browse q p r d h
    · rw [if_neg h2] at h
      unfold scrapeSingleRegion at h
      exact scrapeAtUrl_region fetch q parentText p _ (some r) d h

/-- The region loop is the `filterMap` of the per-region outcome. -/
theorem scrapeRegionsLoop_eq_filterMap
    (fetch : String → Bool → Except String String)
    (q : String → String → Option String)
    (parentText : String → String → Option String)
    (browse : ProductCfg → String → Except String String)
    (p : ProductCfg) (rs : List String) :
    scrapeRegionsLoop fetch q parentText browse p rs
      = rs.filterMap (perRegionScrape fetch q parentText browse p) := by
  induction rs with
  | nil => rfl
  | cons r rest ih =>
    rw [scrapeRegionsLoop, List.filterMap_cons, ih]
    unfold perRegionScrape
    rcases hd : regionDispatch fetch q parentText browse p r with ⟨ok, e, dat⟩
    cases ok <;> cases dat <;> simp

/-- The per-region outcome inherits the region tag. -/
theorem perRegionScrape_region
    (fetch : String → Bool → Except String String)
    (q : String → String → Option String)
    (parentText : String → String → Option String)
    (browse : ProductCfg → String → Except String String)
    (p : ProductCfg) (r : String) (d : PriceData)
    (h : perRegionScrape fetch q parentText browse p r = some d) :
    d.region = some r := by
  unfold perRegionScrape at h
  rcases hd : regionDispatch fetch q parentText browse p r with ⟨ok, e, dat⟩
  rw [hd] at h
  match ok, dat, h with
  | true, some d2, h =>
    have hde : d2 = d := by simpa using h
    subst hde
    exact regionDispatch_region fetch q parentText browse p r d2 (by rw [hd])

/-- In an all-challenge page-state stream the waited counter reaches the
maximum. -/
theorem cfWait_ge (isCh : Nat → Bool) (maxWait : Nat) (hch : ∀ k, isCh k = true) :
    ∀ fuel w, maxWait ≤ 2 * fuel + w → maxWait ≤ cfWait isCh maxWait fuel w := by
  intro fuel
  induction fuel with
  | zero => intro w hw; simpa [cfWait] using hw
  | succ f ih =>
    intro w hw
    rw [cfWait]
    by_cases hlt : w < maxWait
    · rw [if_pos hlt, hch w, if_pos rfl]
      exact ih (w + 2) (by omega)
    · rw [if_neg hlt]; omega

/-! ## Claim theorems -/

/-- Claim C6, counterexample: a fetch through `fetch_page_with_proxy` or
`fetch_page_with_nodriver` whose page never leaves the Cloudflare challenge
state still returns the challenge page's content instead of a failure,
refuting "for every fetch path". -/
theorem c6_challenge_timeout_counterexample :
    isCloudflareHtml challengePage = true ∧
    fetchPageWithProxy (fun _ => challengePage) challengePage = some challengePage ∧
    fetchPageWithNodriver (fun _ => challengePage) challengePage = some challengePage :=
  ⟨by decide, by decide, by decide⟩

/-- Claim C6, amended: only the patchright fetch path returns failure (no
HTML) when the page is still classified as a challenge at the configured
maximum wait; the proxy and nodriver paths log the timeout but return the
page content anyway. -/
theorem c6_challenge_timeout_amended (title content : Nat → String) (visible : Bool)
    (finalHtml : String)
    (h : ∀ k, isCloudflarePat (title k) (content k) = true) :
    fetchPageWithPatchright title content visible finalHtml = none := by
  unfold fetchPageWithPatchright
  have hge := cfWait_ge (fun w => isCloudflarePat (title w) (content w))
    (if visible then 90 else 60) h (if visible then 90 else 60) 0 (by cases visible <;> simp)
  rw [if_pos hge]

/-- Claim C6, witness: the amended theorem applied to a constant challenge
page in headless mode. -/
theorem c6_challenge_timeout_witness :
    fetchPageWithPatchright (fun _ => challengePage) (fun _ => challengePage) false "h" = none :=
  c6_challenge_timeout_amended (fun _ => challengePage) (fun _ => challengePage) false "h"
    (fun _ => (by decide : isCloudflarePat challengePage challengePage = true))

/-- Claim C7, counterexample: for the token `mena_fr` the code's heuristic
tests the first two characters (`ME`), not the prefix before the separator
(`MENA`), so the resolver as the claim words it disagrees with the code. -/
theorem c7_resolver_priority_counterexample :
    resolveRegionPageId (some "mena_fr") [("ME", "pME"), ("MENA", "pMENA")] [] = some "pME" ∧
    resolveRegionSpecClaim (some "mena_fr") [("ME", "pME"), ("MENA", "pMENA")] [] = some "pMENA" ∧
    (some "pME" : Option String) ≠ some "pMENA" :=
  ⟨by decide, by decide, by decide⟩

/-- Claim C7, amended: the resolver follows the priority list override
table → exact canonical code (case-insensitive) → alias (case-insensitive)
→ separator heuristic → unresolved, where the heuristic upper-cases the
FIRST TWO characters of a token of length at least two containing a
separator and tests them against the canonical code set. -/
theorem c7_resolver_priority_amended (rv : Option String)
    (cmap amap : List (String × String)) :
    resolveRegionPageId rv cmap amap = resolveRegionStaged rv cmap amap := by
  unfold resolveRegionPageId resolveRegionStaged
  cases rv with
  | none => rfl
  | some v =>
    by_cases h1 : v = "" <;> simp [h1]
    by_cases h2 : pyStrip v = "" <;> simp [h2]
    cases hov : lookupA valueToCanonicalOverrides (lowerStr (pyStrip v)) <;>
      simp [hov, firstDecision]
    by_cases h3 : pyTruthy (lookupA cmap (upperStr (pyStrip v))) <;> simp [h3, firstDecision]
    by_cases h4 : pyTruthy (lookupA amap (lowerStr (pyStrip v))) <;> simp [h4, firstDecision]
    by_cases h5 : 2 ≤ (lowerStr (pyStrip v)).length ∧ containsSub (lowerStr (pyStrip v)) "_" <;>
      simp [h5, firstDecision]

/-- Claim C8: a token that strips and lower-cases to `uk` is decided by the
override table and resolves through the canonical `GB` entry (never the
literal `UK` entry), and a token that strips and lower-cases to `africa`
resolves through the aggregate `XF` entry (never `AF`), for every pair of
region maps. -/
theorem c8_override_tokens (cmap amap : List (String × String)) (s t : String)
    (hs : lowerStr (pyStrip s) = "uk") (ht : lowerStr (pyStrip t) = "africa") :
    resolveRegionPageId (some s) cmap amap = pyOr (lookupA cmap "GB") (lookupA amap "gb") ∧
    resolveRegionPageId (some t) cmap amap = pyOr (lookupA cmap "XF") (lookupA amap "xf") := by
  constructor
  · have hse : ¬ s = "" := by
      intro he; rw [he] at hs; exact absurd hs (by decide)
    have hraw : ¬ pyStrip s = "" := by
      intro he; rw [he] at hs; exact absurd hs (by decide)
    unfold resolveRegionPageId
    simp only [hse, hraw, hs, if_false]
    rw [show lookupA valueToCanonicalOverrides "uk" = some "GB" from by decide]
    rfl
  · have hte : ¬ t = "" := by
      intro he; rw [he] at ht; exact absurd ht (by decide)
    have htraw : ¬ pyStrip t = "" := by
      intro he; rw [he] at ht; exact absurd ht (by decide)
    unfold resolveRegionPageId
    simp only [hte, htraw, ht, if_false]
    rw [show lookupA valueToCanonicalOverrides "africa" = some "XF" from by decide]
    rfl

/-- Claim C1, counterexample: a product with three configured regions whose
second region's fetch fails produces only two data records and two pushed
observations — the failing region is skipped entirely instead of
contributing a failure observation, so the run does NOT emit exactly one
observation per configured region. -/
theorem c1_per_region_counterexample :
    exProduct3.region_config.regions.length = 3 ∧
    (scrapeProductAllRegions exFetch3 exQ3 exPT exBrowse exProduct3).length = 2 ∧
    (observationsForProduct exProduct3
        (scrapeProduct exFetch3 exQ3 exPT exBrowse exProduct3) [] []).length = 2 ∧
    (scrapeProductAllRegions exFetch3 exQ3 exPT exBrowse exProduct3).map PriceData.region
      = [some "us", some "fr"] :=
  ⟨by decide, by decide, by decide, by decide⟩

/-- Claim C1, amended: over a multi-region product the run produces exactly
one data record per region whose scrape succeeds, in configuration order
(the `filterMap` of the per-region outcome), each tagged with its own region
token; a failing region is skipped without aborting the loop or affecting
the other regions' records. -/
theorem c1_per_region_amended
    (fetch : String → Bool → Except String String)
    (q : String → String → Option String)
    (parentText : String → String → Option String)
    (browse : ProductCfg → String → Except String String)
    (p : ProductCfg)
    (h1 : p.region_config.type ≠ "none") (h2 : p.region_config.regions ≠ []) :
    scrapeProductAllRegions fetch q parentText browse p
      = p.region_config.regions.filterMap (perRegionScrape fetch q parentText browse p) ∧
    ∀ r d, perRegionScrape fetch q parentText browse p r = some d → d.region = some r := by
  constructor
  · unfold scrapeProductAllRegions
    rw [if_neg (by simp [h1, h2])]
    exact scrapeRegionsLoop_eq_filterMap fetch q parentText browse p _
  · intro r d h
    exact perRegionScrape_region fetch q parentText browse p r d h

/-- Claim C1, witness: the amended theorem at the three-region fixture. -/
theorem c1_per_region_witness :
    exProduct3.region_config.type ≠ "none" ∧ exProduct3.region_config.regions ≠ [] ∧
    scrapeProductAllRegions exFetch3 exQ3 exPT exBrowse exProduct3
      = exProduct3.region_config.regions.filterMap
          (perRegionScrape exFetch3 exQ3 exPT exBrowse exProduct3) :=
  ⟨by decide, by decide,
   (c1_per_region_amended exFetch3 exQ3 exPT exBrowse exProduct3 (by decide) (by decide)).1⟩

/-- Claim C9, counterexample: in `chatgpt_scraper.scrape_region` a
successfully parsed price whose region token does not resolve leads to a
raised `ValueError`, a `False` return and NO pushed observation — the
unresolved region does block emission on that path. -/
theorem c9_unresolved_region_counterexample :
    cgExtractText exQC9 selectorsPrice = "$20.00" ∧
    cgParsePrice "$20.00" = some 20 ∧
    resolveRegionPageId (some "ZZ") [] [] = none ∧
    cgScrapeRegion (some "h") exQC9 none "ZZ" [] [] = (false, []) := by
  refine ⟨by decide, ?_, by decide, by decide⟩
  have h : parseDecParts (cgClean "$20.00") = some (false, 2000, 2) := by decide
  simp [cgParsePrice, parseDec, h, partsVal]
  norm_num

/-- Claim C9, amended: in the orchestrator's `run_scraper` loop an
unresolved region token does not block emission — every data record with a
parsed amount is pushed with `success = true` and a null region page id. -/
theorem c9_unresolved_region_amended (p : ProductCfg)
    (cmap amap : List (String × String)) (ds : List PriceData) (d : PriceData) (a : ℚ)
    (hmem : d ∈ ds) (hamt : d.amount = some a)
    (hres : resolveRegionPageId d.region cmap amap = none) :
    pushForData p.name cmap amap d ∈ observationsForProduct p (true, "", ds) cmap amap ∧
    (pushForData p.name cmap amap d).success = true ∧
    (pushForData p.name cmap amap d).region_page_id = none ∧
    (pushForData p.name cmap amap d).amount = a := by
  refine ⟨?_, ?_, ?_, ?_⟩
  · unfold observationsForProduct
    cases ds with
    | nil => cases hmem
    | cons x xs => exact List.mem_map_of_mem _ hmem
  · unfold pushForData; rw [hres, hamt]
  · unfold pushForData; rw [hres, hamt]
  · unfold pushForData; rw [hres, hamt]

/-- Claim C9, witness: the amended theorem at a record with region token
`zz` and empty region maps. -/
theorem c9_unresolved_region_witness :
    exDataC9 ∈ [exDataC9] ∧ exDataC9.amount = some 5 ∧
    resolveRegionPageId exDataC9.region [] [] = none ∧
    pushForData exProductC2.name [] [] exDataC9
      ∈ observationsForProduct exProductC2 (true, "", [exDataC9]) [] [] :=
  ⟨List.mem_singleton.mpr rfl, rfl, by decide,
   (c9_unresolved_region_amended exProductC2 [] [] [exDataC9] exDataC9 5
      (List.mem_singleton.mpr rfl) rfl (by decide)).1⟩

/-- Claim C10: when the effective target URL contains `chatgpt.com`, the
scrape proceeds exactly as if called on `https://openai.com/chatgpt/pricing`
— the rewritten URL is what is fetched — and any emitted data record's
source URL is the rewritten URL, not the configured one. -/
theorem c10_chatgpt_rewrite
    (fetch : String → Bool → Except String String)
    (q : String → String → Option String)
    (parentText : String → String → Option String)
    (p : ProductCfg) (urlArg : Option String) (region : Option String)
    (h : containsSub (effectiveUrl p urlArg) "chatgpt.com" = true) :
    scrapeSingleRegion fetch q parentText p urlArg region
      = scrapeAtUrl fetch q parentText p "https://openai.com/chatgpt/pricing" region ∧
    ∀ d, (scrapeSingleRegion fetch q parentText p urlArg region).2.2 = some d →
      d.source_url = "https://openai.com/chatgpt/pricing" := by
  have heq : scrapeSingleRegion fetch q parentText p urlArg region
      = scrapeAtUrl fetch q parentText p "https://openai.com/chatgpt/pricing" region := by
    unfold scrapeSingleRegion
    simp only []
    rw [if_pos h]
  refine ⟨heq, ?_⟩
  intro d hd
  rw [heq] at hd
  exact scrapeAtUrl_source fetch q parentText p _ region d hd

/-- Claim C10, witness: the rewrite theorem at a product configured with
`https://chatgpt.com/pricing`. -/
theorem c10_chatgpt_rewrite_witness :
    containsSub (effectiveUrl exProductCg none) "chatgpt.com" = true ∧
    scrapeSingleRegion exFetchOk exQC2 exPT exProductCg none none
      = scrapeAtUrl exFetchOk exQC2 exPT exProductCg "https://openai.com/chatgpt/pricing" none :=
  ⟨by decide,
   (c10_chatgpt_rewrite exFetchOk exQC2 exPT exProductCg none none (by decide)).1⟩

/-- Claim C2: evaluation at the failing input.  A currency selector whose
extracted text is `,` survives the `or "USD"` defaults (a lone comma is
truthy) and is then erased by the comma strip, so the run pushes a
`success = true` observation with an EMPTY currency code, violating the
invariant.  The price `9.99` parses, so the success path is taken. -/
theorem c2_success_invariant_bug :
    extractTextSel (exQC2 "h") exProductC2.selectors.currency = "," ∧
    (mainParsePrice "9.99").isSome = true ∧
    (observationsForProduct exProductC2
        (scrapeProduct exFetchOk exQC2 exPT exBrowse exProductC2) [] []).map
      (fun p => (p.success, p.currency)) = [(true, "")] :=
  ⟨by decide, by decide, by decide⟩

/-- Claim C3: evaluation at the failing input.  `main_scraper.parse_price`
strips ALL commas (together with whitespace) before the decimal-convention
check, so its European branch is dead code and `19,99 €` parses to `1999`,
contradicting its own docstring; `chatgpt_scraper.parse_price` implements
both conventions and yields `19.99` and `1234.56` as the claim states. -/
theorem c3_decimal_convention_bug :
    mainParsePrice "19,99 €" = some 1999 ∧
    cgParsePrice "19,99 €" = some ((1999 : ℚ) / 100) ∧
    cgParsePrice "1,234.56" = some ((123456 : ℚ) / 100) := by
  refine ⟨?_, ?_, ?_⟩
  · have h : parseDecParts (mainClean "19,99 €") = some (false, 1999, 0) := by decide
    norm_num [mainParsePrice, parseDec, h, partsVal]
    intro he
    exact absurd he (by decide)
  · have h : parseDecParts (cgClean "19,99 €") = some (false, 1999, 2) := by decide
    norm_num [cgParsePrice, parseDec, h, partsVal]
    intro he
    exact absurd he (by decide)
  · have h : parseDecParts (cgClean "1,234.56") = some (false, 123456, 2) := by decide
    norm_num [cgParsePrice, parseDec, h, partsVal]
    intro he
    exact absurd he (by decide)

/-- Claim C4: the four sample round-trips of the supported symbol/locale
set hold for the chatgpt_scraper parser and currency detector, with the
multi-character `R$` detected as BRL even though the string also contains
the overlapping single-character `$`. -/
theorem c4_sample_roundtrips :
    cgParsePrice "$12.99" = some ((1299 : ℚ) / 100) ∧ extractCurrency "$12.99" = "USD" ∧
    cgParsePrice "19,99 €" = some ((1999 : ℚ) / 100) ∧ extractCurrency "19,99 €" = "EUR" ∧
    cgParsePrice "R$ 99,90" = some ((9990 : ℚ) / 100) ∧ extractCurrency "R$ 99,90" = "BRL" ∧
    cgParsePrice "ZAR 399" = some 399 ∧ extractCurrency "ZAR 399" = "ZAR" := by
  refine ⟨?_, by decide, ?_, by decide, ?_, by decide, ?_, by decide⟩
  · have h : parseDecParts (cgClean "$12.99") = some (false, 1299, 2) := by decide
    norm_num [cgParsePrice, parseDec, h, partsVal]
    intro he
    exact absurd he (by decide)
  · have h : parseDecParts (cgClean "19,99 €") = some (false, 1999, 2) := by decide
    norm_num [cgParsePrice, parseDec, h, partsVal]
    intro he
    exact absurd he (by decide)
  · have h : parseDecParts (cgClean "R$ 99,90") = some (false, 9990, 2) := by decide
    norm_num [cgParsePrice, parseDec, h, partsVal]
    intro he
    exact absurd he (by decide)
  · have h : parseDecParts (cgClean "ZAR 399") = some (false, 399, 0) := by decide
    norm_num [cgParsePrice, parseDec, h, partsVal]
    intro he
    exact absurd he (by decide)

/-- Claim C5, counterexample: a selector tier yielding the non-empty but
unvalidated text `Contact us` suppresses the pattern fallback even though
the Plus section contains `$20 / month`, which the fallback would have
extracted and validated (`20` is finite and positive) — the whole scrape
fails instead.  So progression is NOT gated on a validated price. -/
theorem c5_tier_gate_counterexample :
    cgExtractText exQC5 selectorsPrice = "Contact us" ∧
    cgParsePrice "Contact us" = none ∧
    extractPriceFromHtml "$20 / month" = some "$20" ∧
    cgParsePrice "$20" = some 20 ∧
    cgScrapeRegion (some "h") exQC5 (some "$20 / month") "US" [("US", "pUS")] [] = (false, []) := by
  refine ⟨by decide, by decide, by decide, ?_, by decide⟩
  have h : parseDecParts (cgClean "$20") = some (false, 20, 0) := by decide
  norm_num [cgParsePrice, parseDec, h, partsVal]
  intro he
  exact absurd he (by decide)

/-- Claim C5, amended: the pattern fallback is gated on the selector tier's
output being EMPTY, not on validation: whenever the selector tier yields
any non-empty text, the scrape result is independent of the Plus-section
content the fallback would read. -/
theorem c5_tier_gate_amended (html : String) (q : String → Option String)
    (sec : Option String) (cc : String) (cmap amap : List (String × String))
    (h : cgExtractText q selectorsPrice ≠ "") :
    cgScrapeRegion (some html) q sec cc cmap amap
      = cgScrapeRegion (some html) q none cc cmap amap := by
  have hsel : cgSelectPriceRaw (cgExtractText q selectorsPrice) sec
      = cgSelectPriceRaw (cgExtractText q selectorsPrice) none := by
    unfold cgSelectPriceRaw
    rw [if_neg h, if_neg h]
  unfold cgScrapeRegion
  simp only []
  rw [hsel]

/-- Claim C5, witness: the amended theorem at the `Contact us` fixture. -/
theorem c5_tier_gate_witness :
    cgExtractText exQC5 selectorsPrice ≠ "" ∧
    cgScrapeRegion (some "h") exQC5 (some "$20 / month") "US" [("US", "pUS")] []
      = cgScrapeRegion (some "h") exQC5 none "US" [("US", "pUS")] [] :=
  ⟨by decide,
   c5_tier_gate_amended "h" exQC5 (some "$20 / month") "US" [("US", "pUS")] [] (by decide)⟩

/-- Claim C8, witness: the override theorem with the tokens `UK` and
`Africa` over maps that also contain literal `UK` and `AF` entries. -/
theorem c8_override_tokens_witness :
    lowerStr (pyStrip "UK") = "uk" ∧ lowerStr (pyStrip "Africa") = "africa" ∧
    resolveRegionPageId (some "UK")
        [("GB", "pGB"), ("UK", "pUK"), ("XF", "pXF"), ("AF", "pAF")] []
      = pyOr (lookupA [("GB", "pGB"), ("UK", "pUK"), ("XF", "pXF"), ("AF", "pAF")] "GB")
          (lookupA [] "gb") :=
  ⟨by decide, by decide,
   (c8_override_tokens [("GB", "pGB"), ("UK", "pUK"), ("XF", "pXF"), ("AF", "pAF")] []
      "UK" "Africa" (by decide) (by decide)).1⟩

end Reflex
